import Mathlib

/-!
Verification of the Win+D single-monitor utility (`src/main.py`).

The development shallowly embeds the two core components of the program:

* `WinD.WinDHook._callback` — the low-level keyboard hook callback
  (`WinDHook._callback`, main.py lines 319–351), as a pure step function
  from hook state and one keyboard event to a new state plus the observable
  outcome (whether the event was suppressed, i.e. the callback returned 1
  instead of `CallNextHookEx`, and whether `on_win_d` / `trigger()` was
  invoked).
* `WinD.Controller` — the toggle controller
  (`Controller`, main.py lines 196–244), as pure state transformers over an
  explicit environment (cursor position, window list) that return the new
  controller state together with the list of `ShowWindow` calls issued.

Machine integers of the source are modelled as `Nat` (virtual-key codes,
window messages, window styles, window handles) and `Int` (screen
coordinates, monitor indices as Python ints); Python's floor division `//`
is `Int.fdiv`.
-/

namespace WinD

/-! ### Constants from main.py -/

def WM_KEYDOWN : Nat := 0x0100
def WM_KEYUP : Nat := 0x0101
def WM_SYSKEYDOWN : Nat := 0x0104
def WM_SYSKEYUP : Nat := 0x0105

def VK_LWIN : Nat := 0x5B
def VK_RWIN : Nat := 0x5C
def VK_D : Nat := 0x44

/-- `win32con.SW_SHOWMINIMIZED` -/
def SW_SHOWMINIMIZED : Nat := 2
/-- `win32con.SW_MINIMIZE` -/
def SW_MINIMIZE : Nat := 6
/-- `win32con.SW_RESTORE` -/
def SW_RESTORE : Nat := 9
/-- `win32con.WS_EX_TOOLWINDOW` -/
def WS_EX_TOOLWINDOW : Nat := 0x80

/-! ### Keyboard hook model (`WinDHook`, main.py 304–351) -/

/-- One keyboard event delivered to the low-level hook callback: the hook
code `nCode`, the virtual-key code `kbd.vkCode`, and the message `wParam`. -/
structure KBEvent where
  nCode : Int
  vk : Nat
  wParam : Nat
deriving DecidableEq

/-- The interceptor's mutable state: `self._win_down` and
`self._suppress_d_up` (main.py 314–315). -/
structure HookState where
  win_down : Bool
  suppress_d_up : Bool
deriving DecidableEq

/-- Observable outcome of one `_callback` invocation: the updated hook
state, whether the event was suppressed (the callback returned 1 rather
than delegating to `CallNextHookEx`), and whether `self.on_win_d()` (the
controller's trigger) was invoked. -/
structure StepOut where
  state : HookState
  suppressed : Bool
  triggered : Bool
deriving DecidableEq

/-- `wParam in (WM_KEYDOWN, WM_SYSKEYDOWN)` (main.py 326). -/
def is_down_msg (wParam : Nat) : Bool :=
  wParam == WM_KEYDOWN || wParam == WM_SYSKEYDOWN

/-- `wParam in (WM_KEYUP, WM_SYSKEYUP)` (main.py 327). -/
def is_up_msg (wParam : Nat) : Bool :=
  wParam == WM_KEYUP || wParam == WM_SYSKEYUP

/-- `vk in (VK_LWIN, VK_RWIN)` (main.py 330). -/
def is_win_key (vk : Nat) : Bool :=
  vk == VK_LWIN || vk == VK_RWIN

namespace WinDHook

/-- `WinDHook._callback` (main.py 319–351).

* `nCode < 0`: delegate to `CallNextHookEx` (pass through, no state change).
* Win key (left or right): update `_win_down` on down/up, always pass
  through.
* `_win_down` and D pressed: invoke `on_win_d()` (exceptions from it are
  swallowed by the `try`/`except`), set `_suppress_d_up`, return 1.
* `_suppress_d_up` and D released: clear the flag, return 1.
* Everything else: pass through via `CallNextHookEx`. -/
def _callback (s : HookState) (e : KBEvent) : StepOut :=
  if e.nCode < 0 then
    ⟨s, false, false⟩
  else if is_win_key e.vk then
    ⟨⟨if is_down_msg e.wParam then true
      else if is_up_msg e.wParam then false
      else s.win_down, s.suppress_d_up⟩, false, false⟩
  else if s.win_down && (e.vk == VK_D) && is_down_msg e.wParam then
    ⟨⟨s.win_down, true⟩, true, true⟩
  else if s.suppress_d_up && (e.vk == VK_D) && is_up_msg e.wParam then
    ⟨⟨s.win_down, false⟩, true, false⟩
  else
    ⟨s, false, false⟩

/-- Initial hook state (`self._win_down = False`,
`self._suppress_d_up = False`, main.py 314–315). -/
def initState : HookState := ⟨false, false⟩

/-- Run `_callback` over a whole event sequence; besides the final state,
record whether any event in the sequence was suppressed and whether
`on_win_d` was invoked at least once. -/
def runCallback (s : HookState) : List KBEvent → HookState × Bool × Bool
  | [] => (s, false, false)
  | e :: rest =>
    let o := _callback s e
    let r := runCallback o.state rest
    (r.1, o.triggered || r.2.1, o.suppressed || r.2.2)

end WinDHook

/-- Claim-side predicate (C3, literal reading): the event sequence contains
a modifier-down event immediately followed by a secondary-key-down event. -/
def contains_mod_down_then_d_down : List KBEvent → Bool
  | e1 :: e2 :: rest =>
    (is_win_key e1.vk && is_down_msg e1.wParam
      && (e2.vk == VK_D) && is_down_msg e2.wParam)
    || contains_mod_down_then_d_down (e2 :: rest)
  | _ => false

/-- Claim-side predicate (C3, amended): starting with tracked modifier
state `w`, no secondary-key (D) down event occurs at a point where the
tracked modifier state is held. Mirrors the tracking the callback itself
performs: a modifier down/up event (with `nCode ≥ 0`) sets/clears the
tracked state, events with `nCode < 0` are ignored. -/
def no_combo_while_held (w : Bool) : List KBEvent → Bool
  | [] => true
  | e :: rest =>
    if e.nCode < 0 then no_combo_while_held w rest
    else if is_win_key e.vk then
      no_combo_while_held
        (if is_down_msg e.wParam then true
         else if is_up_msg e.wParam then false
         else w) rest
    else if w && (e.vk == VK_D) && is_down_msg e.wParam then false
    else no_combo_while_held w rest

/-! ### Monitor and window helpers (main.py 126–189) -/

/-- A monitor/window rectangle `(l, t, r, b)` in virtual-screen
coordinates. -/
structure Rect where
  l : Int
  t : Int
  r : Int
  b : Int
deriving DecidableEq

/-- `point_in_rect` (main.py 131–133): `l <= x < r and t <= y < b`. -/
def point_in_rect (x y : Int) (rc : Rect) : Bool :=
  decide (rc.l ≤ x) && decide (x < rc.r) && decide (rc.t ≤ y) && decide (y < rc.b)

/-- The first-match enumeration loop shared by `get_cursor_monitor_idx`
(main.py 136–141) and `get_window_monitor_idx` (main.py 160–170): index of
the first monitor whose rectangle contains the point, else `none`. -/
def monitor_at_point (x y : Int) : List Rect → Option Nat
  | [] => none
  | rc :: rest =>
    if point_in_rect x y rc then some 0
    else (monitor_at_point x y rest).map (· + 1)

/-- Attributes of one top-level window as observed by the enumeration
callback: handle, `IsWindowVisible`, `GetClassName`, the `GWL_EXSTYLE`
style word, the `GetWindowRect` result (`none` models the call raising),
and the show command from `GetWindowPlacement`. -/
structure Win where
  hwnd : Nat
  visible : Bool
  className : String
  exStyle : Nat
  rect : Option Rect
  showCmd : Nat
deriving DecidableEq

/-- `is_real_window` (main.py 148–157). -/
def is_real_window (w : Win) : Bool :=
  if !w.visible then false
  else if w.className == "Progman" || w.className == "Shell_TrayWnd" then false
  else if w.exStyle &&& WS_EX_TOOLWINDOW ≠ 0 then false
  else true

/-- `get_window_monitor_idx` (main.py 160–170): `none` when
`GetWindowRect` raises, else the monitor containing the window's center
`((l+r)//2, (t+b)//2)` (Python floor division). -/
def get_window_monitor_idx (monitors : List Rect) (w : Win) : Option Nat :=
  match w.rect with
  | none => none
  | some rc =>
    monitor_at_point (Int.fdiv (rc.l + rc.r) 2) (Int.fdiv (rc.t + rc.b) 2) monitors

/-- Python's `mi == idx` where `mi` is `None` or an index and `idx` is an
int: `None == idx` is `False`. -/
def opt_eq_int (mi : Option Nat) (idx : Int) : Bool :=
  match mi with
  | none => false
  | some i => decide ((i : Int) = idx)

/-- `enum_windows_on_monitor` (main.py 173–189): walk the windows in OS
enumeration order, keep the handles of real windows whose center monitor
equals `idx` and whose placement is not `SW_SHOWMINIMIZED`. -/
def enum_windows_on_monitor (monitors : List Rect) (idx : Int) : List Win → List Nat
  | [] => []
  | w :: rest =>
    let tail := enum_windows_on_monitor monitors idx rest
    if !is_real_window w then tail
    else if opt_eq_int (get_window_monitor_idx monitors w) idx then
      if w.showCmd ≠ SW_SHOWMINIMIZED then w.hwnd :: tail else tail
    else tail

/-! ### Controller model (main.py 196–244) -/

/-- The OS environment a `trigger()` call observes: the cursor position
(`GetCursorPos`) and the current top-level windows in enumeration order. -/
structure Env where
  cursorX : Int
  cursorY : Int
  windows : List Win
deriving DecidableEq

/-- `Controller` state: `self.monitors`, `self.allowed`,
`self.cfg["allowed_monitor"]`, `self.toggled` (phase: `false` = Idle,
`true` = Minimized), `self.minimized` (handles, in minimize order). -/
structure CtrlState where
  monitors : List Rect
  allowed : Int
  cfgAllowed : Int
  toggled : Bool
  minimized : List Nat
deriving DecidableEq

namespace Controller

/-- `Controller.__init__` (main.py 197–203): `allowed` is copied from the
loaded config's `allowed_monitor` value (an arbitrary int — `load_config`
does not clamp it), `toggled = False`, `minimized = []`. -/
def init (cfgAllowed : Int) (monitors : List Rect) : CtrlState :=
  ⟨monitors, cfgAllowed, cfgAllowed, false, []⟩

/-- `Controller.refresh_monitors` (main.py 205–207). -/
def refresh_monitors (s : CtrlState) (monitors : List Rect) : CtrlState :=
  { s with monitors := monitors }

/-- `Controller.set_allowed` (main.py 209–213): clamp to `max(0, idx)`,
write it into the config record, and call `save_config` (the returned
`Bool` records that the `save_config` persistence call was made). -/
def set_allowed (s : CtrlState) (idx : Int) : CtrlState × Bool :=
  ({ s with allowed := max 0 idx, cfgAllowed := max 0 idx }, true)

/-- `Controller.toggle_desktop_single_monitor` (main.py 215–244), the
spec's `trigger()`. Returns the new state and the list of
`ShowWindow(hwnd, cmd)` calls attempted, in order. -/
def toggle_desktop_single_monitor (s : CtrlState) (env : Env) :
    CtrlState × List (Nat × Nat) :=
  let cursor_m := monitor_at_point env.cursorX env.cursorY s.monitors
  if !(opt_eq_int cursor_m s.allowed) then
    (s, [])
  else if !s.toggled then
    let wins := enum_windows_on_monitor s.monitors s.allowed env.windows
    ({ s with minimized := wins, toggled := true },
      wins.map fun h => (h, SW_MINIMIZE))
  else
    ({ s with minimized := [], toggled := false },
      s.minimized.reverse.map fun h => (h, SW_RESTORE))

end Controller

/-! ### Hook installation (`WinDHook.start`, main.py 353–377) -/

/-- The observable outcome of `WinDHook.start`: what the caller of
`start()` sees, and what happens on the spawned hook thread. -/
structure StartOutcome where
  callerError : Option String
  hookThreadError : Option String
deriving DecidableEq

namespace WinDHook

/-- `WinDHook.start` (main.py 353–377). `regOk` models whether
`SetWindowsHookExW` returns a non-null hook handle inside the thread
target `run()`. `start()` itself only spawns the daemon thread and
returns; the `OSError("Failed to install keyboard hook")` raised by
`run()` on registration failure stays on the hook thread (Python's
`threading` does not propagate a target's exception to the caller of
`Thread.start`), so the caller of `start()` observes no error either
way. -/
def start (regOk : Bool) : StartOutcome :=
  { callerError := none
    hookThreadError :=
      if regOk then none else some "Failed to install keyboard hook" }

end WinDHook

end WinD

/-! ## Theorems -/

namespace WinD

namespace WinDHook

/-- `is_up_msg` and `is_down_msg` classify disjoint message sets. -/
theorem is_up_msg_down_false {w : Nat} (h : is_up_msg w = true) :
    is_down_msg w = false := by
  revert h
  unfold is_up_msg is_down_msg WM_KEYUP WM_SYSKEYUP WM_KEYDOWN WM_SYSKEYDOWN
  simp only [Bool.or_eq_true, beq_iff_eq]
  rintro (rfl | rfl) <;> decide

end WinDHook

/-- C1: per-event behavior of the interceptor callback, for every hook
state and every key event actually processed (hook code ≥ 0): a modifier
(Win) key event is never suppressed, never triggers, updates `win_down`
(true on down, false on up) and leaves the suppression flag alone; a D
down event while `win_down` is tracked is suppressed, invokes the trigger
and arms `suppress_d_up`; a D up event while `suppress_d_up` is armed is
suppressed and disarms the flag; every other event is passed through with
the state completely unchanged. -/
theorem callback_exact_suppression (s : HookState) (e : KBEvent)
    (hn : 0 ≤ e.nCode) :
    (is_win_key e.vk = true →
      (WinDHook._callback s e).suppressed = false ∧
      (WinDHook._callback s e).triggered = false ∧
      (WinDHook._callback s e).state.win_down =
        (if is_down_msg e.wParam then true
         else if is_up_msg e.wParam then false
         else s.win_down) ∧
      (WinDHook._callback s e).state.suppress_d_up = s.suppress_d_up) ∧
    (is_win_key e.vk = false → e.vk = VK_D → is_down_msg e.wParam = true →
      s.win_down = true →
      (WinDHook._callback s e).suppressed = true ∧
      (WinDHook._callback s e).triggered = true ∧
      (WinDHook._callback s e).state = ⟨s.win_down, true⟩) ∧
    (is_win_key e.vk = false → e.vk = VK_D → is_up_msg e.wParam = true →
      s.suppress_d_up = true →
      (WinDHook._callback s e).suppressed = true ∧
      (WinDHook._callback s e).triggered = false ∧
      (WinDHook._callback s e).state = ⟨s.win_down, false⟩) ∧
    (is_win_key e.vk = false →
      ¬(e.vk = VK_D ∧ is_down_msg e.wParam = true ∧ s.win_down = true) →
      ¬(e.vk = VK_D ∧ is_up_msg e.wParam = true ∧ s.suppress_d_up = true) →
      (WinDHook._callback s e).suppressed = false ∧
      (WinDHook._callback s e).triggered = false ∧
      (WinDHook._callback s e).state = s) := by
  have hn' : ¬ e.nCode < 0 := Int.not_lt.mpr hn
  unfold WinDHook._callback
  rw [if_neg hn']
  refine ⟨?_, ?_, ?_, ?_⟩
  · intro hw
    rw [if_pos hw]
    exact ⟨rfl, rfl, rfl, rfl⟩
  · intro hw hd hdown hwd
    rw [if_neg (by simp [hw]), if_pos (by simp [hwd, hd, hdown])]
    exact ⟨rfl, rfl, rfl⟩
  · intro hw hd hup hflag
    have hdown := WinDHook.is_up_msg_down_false hup
    rw [if_neg (by simp [hw]), if_neg (by simp [hdown]),
      if_pos (by simp [hflag, hd, hup])]
    exact ⟨rfl, rfl, rfl⟩
  · intro hw h2 h3
    rw [if_neg (by simp [hw]),
      if_neg (by simp only [Bool.and_eq_true, beq_iff_eq]; tauto),
      if_neg (by simp only [Bool.and_eq_true, beq_iff_eq]; tauto)]
    exact ⟨rfl, rfl, rfl⟩

/-- Witness for C1 at a concrete input: Win held, D pressed. -/
theorem callback_exact_suppression_witness :
    (WinDHook._callback ⟨true, false⟩ ⟨0, 0x44, 0x0100⟩).suppressed = true ∧
    (WinDHook._callback ⟨true, false⟩ ⟨0, 0x44, 0x0100⟩).triggered = true ∧
    (WinDHook._callback ⟨true, false⟩ ⟨0, 0x44, 0x0100⟩).state = ⟨true, true⟩ :=
  (callback_exact_suppression ⟨true, false⟩ ⟨0, 0x44, 0x0100⟩ (by decide)).2.1
    (by decide) (by decide) (by decide) (by decide)

/-- Unfolding equation for `runCallback` on a cons cell. -/
theorem runCallback_cons (s : HookState) (e : KBEvent) (rest : List KBEvent) :
    WinDHook.runCallback s (e :: rest) =
      ((WinDHook.runCallback (WinDHook._callback s e).state rest).1,
        (WinDHook._callback s e).triggered
          || (WinDHook.runCallback (WinDHook._callback s e).state rest).2.1,
        (WinDHook._callback s e).suppressed
          || (WinDHook.runCallback (WinDHook._callback s e).state rest).2.2) :=
  rfl

/-- If no D-down ever occurs while the tracked modifier state is held,
and the suppression flag starts clear, a run of the callback triggers
nothing and suppresses nothing. -/
theorem run_no_combo (evs : List KBEvent) :
    ∀ s : HookState, s.suppress_d_up = false →
      no_combo_while_held s.win_down evs = true →
      (WinDHook.runCallback s evs).2.1 = false ∧
        (WinDHook.runCallback s evs).2.2 = false := by
  induction evs with
  | nil =>
    intro s _ _
    exact ⟨rfl, rfl⟩
  | cons e rest ih =>
    intro s hs hnc
    rw [runCallback_cons]
    unfold no_combo_while_held at hnc
    unfold WinDHook._callback
    by_cases hneg : e.nCode < 0
    · rw [if_pos hneg] at hnc ⊢
      simpa using ih s hs hnc
    · rw [if_neg hneg] at hnc ⊢
      by_cases hwin : is_win_key e.vk = true
      · rw [if_pos hwin] at hnc ⊢
        simpa using
          ih ⟨if is_down_msg e.wParam then true
              else if is_up_msg e.wParam then false
              else s.win_down, s.suppress_d_up⟩ hs hnc
      · rw [if_neg hwin] at hnc ⊢
        by_cases hcmb : (s.win_down && (e.vk == VK_D) && is_down_msg e.wParam) = true
        · rw [if_pos hcmb] at hnc
          exact absurd hnc (by simp)
        · rw [if_neg hcmb] at hnc ⊢
          rw [if_neg (by simp only [hs, Bool.false_and]; exact Bool.false_ne_true)]
          simpa using ih s hs hnc

/-- C3 counterexample: the sequence Win-down, A-down, D-down contains no
modifier-down event *immediately* followed by a D-down event, yet running
the callback over it from the initial state both invokes the trigger and
suppresses an event (the tracked modifier state persists across the
intervening A-down). -/
theorem adjacent_combo_absent_yet_triggered :
    contains_mod_down_then_d_down
        [⟨0, 0x5B, 0x0100⟩, ⟨0, 0x41, 0x0100⟩, ⟨0, 0x44, 0x0100⟩] = false ∧
      (WinDHook.runCallback WinDHook.initState
        [⟨0, 0x5B, 0x0100⟩, ⟨0, 0x41, 0x0100⟩, ⟨0, 0x44, 0x0100⟩]).2.1 = true ∧
      (WinDHook.runCallback WinDHook.initState
        [⟨0, 0x5B, 0x0100⟩, ⟨0, 0x41, 0x0100⟩, ⟨0, 0x44, 0x0100⟩]).2.2 = true := by
  decide

/-- C3 (amended): for every sequence of key events in which no
secondary-key (D) down event occurs while the tracked modifier state is
held (a modifier-down not yet followed by a modifier-up), running the
interceptor callback over the whole sequence from its initial state never
invokes `trigger()` and never suppresses any event. -/
theorem no_combo_no_trigger_no_suppress (evs : List KBEvent)
    (h : no_combo_while_held false evs = true) :
    (WinDHook.runCallback WinDHook.initState evs).2.1 = false ∧
      (WinDHook.runCallback WinDHook.initState evs).2.2 = false :=
  run_no_combo evs WinDHook.initState rfl h

/-- Witness for the amended C3 at a concrete input: Win tapped and
released, then D pressed — no trigger, no suppression. -/
theorem no_combo_no_trigger_no_suppress_witness :
    no_combo_while_held false
        [⟨0, 0x5B, 0x0100⟩, ⟨0, 0x5B, 0x0101⟩, ⟨0, 0x44, 0x0100⟩] = true ∧
      (WinDHook.runCallback WinDHook.initState
        [⟨0, 0x5B, 0x0100⟩, ⟨0, 0x5B, 0x0101⟩, ⟨0, 0x44, 0x0100⟩]).2.1 = false ∧
      (WinDHook.runCallback WinDHook.initState
        [⟨0, 0x5B, 0x0100⟩, ⟨0, 0x5B, 0x0101⟩, ⟨0, 0x44, 0x0100⟩]).2.2 = false :=
  ⟨by decide,
    no_combo_no_trigger_no_suppress
      [⟨0, 0x5B, 0x0100⟩, ⟨0, 0x5B, 0x0101⟩, ⟨0, 0x44, 0x0100⟩] (by decide)⟩

/-- `trigger()` never changes the allowed monitor index. -/
theorem toggle_allowed_eq (s : CtrlState) (env : Env) :
    (Controller.toggle_desktop_single_monitor s env).1.allowed = s.allowed := by
  simp only [Controller.toggle_desktop_single_monitor]
  split_ifs <;> rfl

/-- `trigger()` never changes the monitor snapshot. -/
theorem toggle_monitors_eq (s : CtrlState) (env : Env) :
    (Controller.toggle_desktop_single_monitor s env).1.monitors = s.monitors := by
  simp only [Controller.toggle_desktop_single_monitor]
  split_ifs <;> rfl

/-- C4: whenever the monitor under the cursor (as computed by the
first-match containment loop, `none` included, compared with Python's
`!=` against the allowed index) differs from `allowed`, `trigger()`
returns with `phase`/`minimized_set` unchanged (the whole state is
unchanged) and issues no `ShowWindow` call. -/
theorem toggle_cursor_mismatch_noop (s : CtrlState) (env : Env)
    (hCur : opt_eq_int (monitor_at_point env.cursorX env.cursorY s.monitors)
      s.allowed = false) :
    Controller.toggle_desktop_single_monitor s env = (s, []) := by
  unfold Controller.toggle_desktop_single_monitor
  rw [if_pos (by simp [hCur])]

/-- Witness for C4: one monitor, cursor outside it. -/
theorem toggle_cursor_mismatch_noop_witness :
    Controller.toggle_desktop_single_monitor
        ⟨[⟨0, 0, 1920, 1080⟩], 0, 0, false, []⟩ ⟨2500, 100, []⟩ =
      (⟨[⟨0, 0, 1920, 1080⟩], 0, 0, false, []⟩, []) :=
  toggle_cursor_mismatch_noop ⟨[⟨0, 0, 1920, 1080⟩], 0, 0, false, []⟩
    ⟨2500, 100, []⟩ (by decide)

/-- C2: starting from phase Idle (with, per the data-model invariant, an
empty minimized set) with the cursor on the allowed monitor, the first
`trigger()` minimizes exactly the eligible windows of the allowed monitor
in enumeration order and moves to phase Minimized with that list recorded;
a second `trigger()` against an unchanged environment restores exactly
those windows in reverse order and returns the state to its pre-first-
trigger value. -/
theorem toggle_round_trip (s : CtrlState) (env : Env)
    (hIdle : s.toggled = false) (hEmpty : s.minimized = [])
    (hCur : opt_eq_int (monitor_at_point env.cursorX env.cursorY s.monitors)
      s.allowed = true) :
    (Controller.toggle_desktop_single_monitor s env).2 =
      (enum_windows_on_monitor s.monitors s.allowed env.windows).map
        (fun h => (h, SW_MINIMIZE)) ∧
    (Controller.toggle_desktop_single_monitor s env).1.toggled = true ∧
    (Controller.toggle_desktop_single_monitor s env).1.minimized =
      enum_windows_on_monitor s.monitors s.allowed env.windows ∧
    (Controller.toggle_desktop_single_monitor
        (Controller.toggle_desktop_single_monitor s env).1 env).2 =
      (enum_windows_on_monitor s.monitors s.allowed env.windows).reverse.map
        (fun h => (h, SW_RESTORE)) ∧
    (Controller.toggle_desktop_single_monitor
        (Controller.toggle_desktop_single_monitor s env).1 env).1 = s := by
  have h1 : Controller.toggle_desktop_single_monitor s env =
      (⟨s.monitors, s.allowed, s.cfgAllowed, true,
          enum_windows_on_monitor s.monitors s.allowed env.windows⟩,
        (enum_windows_on_monitor s.monitors s.allowed env.windows).map
          (fun h => (h, SW_MINIMIZE))) := by
    simp [Controller.toggle_desktop_single_monitor, hCur, hIdle]
  have h2 : Controller.toggle_desktop_single_monitor
      (⟨s.monitors, s.allowed, s.cfgAllowed, true,
        enum_windows_on_monitor s.monitors s.allowed env.windows⟩ : CtrlState)
      env =
      ((⟨s.monitors, s.allowed, s.cfgAllowed, false, []⟩ : CtrlState),
        (enum_windows_on_monitor s.monitors s.allowed env.windows).reverse.map
          (fun h => (h, SW_RESTORE))) := by
    simp [Controller.toggle_desktop_single_monitor, hCur]
  rw [h1, h2]
  refine ⟨rfl, rfl, rfl, rfl, ?_⟩
  conv_rhs =>
    rw [show s = ⟨s.monitors, s.allowed, s.cfgAllowed, s.toggled, s.minimized⟩
      from rfl]
  rw [hIdle, hEmpty]

/-- Witness for C2: one monitor, one eligible window, cursor on the
allowed monitor. -/
theorem toggle_round_trip_witness :
    (Controller.toggle_desktop_single_monitor
        (Controller.toggle_desktop_single_monitor
          ⟨[⟨0, 0, 1920, 1080⟩], 0, 0, false, []⟩
          ⟨100, 100, [⟨7, true, "App", 0, some ⟨0, 0, 100, 100⟩, 1⟩]⟩).1
        ⟨100, 100, [⟨7, true, "App", 0, some ⟨0, 0, 100, 100⟩, 1⟩]⟩).1 =
      ⟨[⟨0, 0, 1920, 1080⟩], 0, 0, false, []⟩ :=
  (toggle_round_trip ⟨[⟨0, 0, 1920, 1080⟩], 0, 0, false, []⟩
    ⟨100, 100, [⟨7, true, "App", 0, some ⟨0, 0, 100, 100⟩, 1⟩]⟩
    rfl rfl (by decide)).2.2.2.2

/-- C8: the controller invariant. Initialization starts in Idle with an
empty minimized set; `set_allowed` and `refresh_monitors` touch neither
the phase nor the minimized set; `trigger()` preserves "Idle implies
empty minimized set"; and on the Idle→Minimized transition the minimized
set is exactly the enumeration of eligible windows on the allowed monitor,
in enumeration order, which is also exactly the list of windows the
transition minimizes. -/
theorem controller_minimized_invariant (cfg idx : Int) (ms ms' : List Rect)
    (s : CtrlState) (env : Env) :
    ((Controller.init cfg ms).toggled = false ∧
      (Controller.init cfg ms).minimized = []) ∧
    ((Controller.set_allowed s idx).1.toggled = s.toggled ∧
      (Controller.set_allowed s idx).1.minimized = s.minimized) ∧
    ((Controller.refresh_monitors s ms').toggled = s.toggled ∧
      (Controller.refresh_monitors s ms').minimized = s.minimized) ∧
    ((s.toggled = false → s.minimized = []) →
      (Controller.toggle_desktop_single_monitor s env).1.toggled = false →
      (Controller.toggle_desktop_single_monitor s env).1.minimized = []) ∧
    (s.toggled = false →
      (Controller.toggle_desktop_single_monitor s env).1.toggled = true →
      (Controller.toggle_desktop_single_monitor s env).1.minimized =
        enum_windows_on_monitor s.monitors s.allowed env.windows ∧
      (Controller.toggle_desktop_single_monitor s env).2 =
        (enum_windows_on_monitor s.monitors s.allowed env.windows).map
          (fun h => (h, SW_MINIMIZE))) := by
  refine ⟨⟨rfl, rfl⟩, ⟨rfl, rfl⟩, ⟨rfl, rfl⟩, ?_, ?_⟩
  · intro hinv
    simp only [Controller.toggle_desktop_single_monitor]
    split_ifs with h1 h2
    · exact fun h => hinv h
    · intro h
      simp at h
    · intro _
      rfl
  · intro hIdle
    simp only [Controller.toggle_desktop_single_monitor]
    split_ifs with h1 h2
    · intro h
      rw [hIdle] at h
      simp at h
    · intro _
      exact ⟨rfl, rfl⟩
    · exact absurd (by simp [hIdle] : (!s.toggled) = true) h2

/-- Witness for C8: the Idle→Minimized transition at a concrete state and
environment records and minimizes exactly the one eligible window. -/
theorem controller_minimized_invariant_witness :
    (Controller.toggle_desktop_single_monitor
        ⟨[⟨0, 0, 1920, 1080⟩], 0, 0, false, []⟩
        ⟨100, 100, [⟨7, true, "App", 0, some ⟨0, 0, 100, 100⟩, 1⟩]⟩).1.minimized =
      enum_windows_on_monitor [⟨0, 0, 1920, 1080⟩] 0
        [⟨7, true, "App", 0, some ⟨0, 0, 100, 100⟩, 1⟩] ∧
    (Controller.toggle_desktop_single_monitor
        ⟨[⟨0, 0, 1920, 1080⟩], 0, 0, false, []⟩
        ⟨100, 100, [⟨7, true, "App", 0, some ⟨0, 0, 100, 100⟩, 1⟩]⟩).2 =
      (enum_windows_on_monitor [⟨0, 0, 1920, 1080⟩] 0
        [⟨7, true, "App", 0, some ⟨0, 0, 100, 100⟩, 1⟩]).map
        (fun h => (h, SW_MINIMIZE)) :=
  (controller_minimized_invariant 0 0 [] []
    ⟨[⟨0, 0, 1920, 1080⟩], 0, 0, false, []⟩
    ⟨100, 100, [⟨7, true, "App", 0, some ⟨0, 0, 100, 100⟩, 1⟩]⟩).2.2.2.2
    rfl (by decide)

/-- C9 counterexample: `set_allowed` does persist the value itself — at a
concrete input the `save_config` persistence call is made (and the
in-memory config record is updated too), refuting "it does not itself
persist the value to configuration storage". -/
theorem set_allowed_persists_config :
    (Controller.set_allowed (Controller.init 0 []) 1).2 = true ∧
      (Controller.set_allowed (Controller.init 0 []) 1).1.cfgAllowed = 1 := by
  decide

/-- C9 (amended): `set_allowed` updates the allowed-monitor selection
(clamped to `max 0 idx`), writes it into the config record, and itself
persists the config via `save_config`; it changes nothing else in the
controller state (monitors, phase, minimized set). -/
theorem set_allowed_frame (s : CtrlState) (idx : Int) :
    (Controller.set_allowed s idx).1.monitors = s.monitors ∧
    (Controller.set_allowed s idx).1.toggled = s.toggled ∧
    (Controller.set_allowed s idx).1.minimized = s.minimized ∧
    (Controller.set_allowed s idx).1.allowed = max 0 idx ∧
    (Controller.set_allowed s idx).1.cfgAllowed = max 0 idx ∧
    (Controller.set_allowed s idx).2 = true :=
  ⟨rfl, rfl, rfl, rfl, rfl, rfl⟩

/-- C10 counterexample: the initializer copies the config's
`allowed_monitor` value without clamping, so with a negative persisted
config value and no further operations the allowed index is negative. -/
theorem init_negative_config_allowed_negative :
    (Controller.init (-1) []).allowed < 0 := by
  decide

/-- C10 (amended): `set_allowed(idx)` stores `max(0, idx)` rather than
rejecting the input, so its result always has a non-negative allowed
index; `trigger()` and `refresh_monitors` preserve non-negativity (only
initialization from a negative persisted config value can produce a
negative index, and only until the first `set_allowed`). -/
theorem set_allowed_clamps_nonneg (s : CtrlState) (idx : Int) (env : Env)
    (ms : List Rect) :
    (Controller.set_allowed s idx).1.allowed = max 0 idx ∧
    0 ≤ (Controller.set_allowed s idx).1.allowed ∧
    (0 ≤ s.allowed →
      0 ≤ (Controller.toggle_desktop_single_monitor s env).1.allowed) ∧
    (0 ≤ s.allowed → 0 ≤ (Controller.refresh_monitors s ms).allowed) := by
  refine ⟨rfl, le_max_left 0 idx, ?_, fun h => h⟩
  intro h
  rw [toggle_allowed_eq]
  exact h

/-- Witness for the amended C10 at concrete inputs. -/
theorem set_allowed_clamps_nonneg_witness :
    (Controller.set_allowed ⟨[], 5, 5, false, []⟩ (-3)).1.allowed = max 0 (-3) ∧
      0 ≤ (Controller.toggle_desktop_single_monitor ⟨[], 5, 5, false, []⟩
        ⟨0, 0, []⟩).1.allowed :=
  ⟨(set_allowed_clamps_nonneg ⟨[], 5, 5, false, []⟩ (-3) ⟨0, 0, []⟩ []).1,
    (set_allowed_clamps_nonneg ⟨[], 5, 5, false, []⟩ (-3) ⟨0, 0, []⟩ []).2.2.1
      (by decide)⟩

/-- C7 counterexample: with hook registration failing, the
`OSError("Failed to install keyboard hook")` is raised on the spawned
hook thread, while the caller of `start()` observes no error at all —
refuting "the failure is surfaced to the caller of the interceptor's
start operation". -/
theorem start_failure_not_observed_by_caller :
    (WinDHook.start false).hookThreadError =
        some "Failed to install keyboard hook" ∧
      (WinDHook.start false).callerError = none :=
  ⟨rfl, rfl⟩

/-- A point on a rectangle's right or bottom edge is not contained in it. -/
theorem point_in_rect_edge_false (x y : Int) (rc : Rect)
    (h : x = rc.r ∨ y = rc.b) : point_in_rect x y rc = false := by
  rw [Bool.eq_false_iff]
  intro hc
  unfold point_in_rect at hc
  simp only [Bool.and_eq_true, decide_eq_true_eq] at hc
  rcases h with rfl | rfl <;> omega

/-- First-match characterization of `monitor_at_point`, `some` case. -/
theorem monitor_at_point_eq_some (x y : Int) :
    ∀ (ms : List Rect) (i : Nat),
      monitor_at_point x y ms = some i ↔
        ∃ rc, ms.get? i = some rc ∧ point_in_rect x y rc = true ∧
          ∀ j, j < i → ∀ rc', ms.get? j = some rc' →
            point_in_rect x y rc' = false := by
  intro ms
  induction ms with
  | nil =>
    intro i
    simp [monitor_at_point]
  | cons rc rest ih =>
    intro i
    unfold monitor_at_point
    by_cases hp : point_in_rect x y rc = true
    · rw [if_pos hp]
      constructor
      · intro h
        have hi : i = 0 := by
          simpa using h.symm
        subst hi
        exact ⟨rc, rfl, hp, fun j hj => absurd hj (Nat.not_lt_zero j)⟩
      · rintro ⟨rc', hget, _, hmin⟩
        cases i with
        | zero => rfl
        | succ k =>
          exact absurd hp (by simp [hmin 0 (Nat.succ_pos k) rc rfl])
    · rw [if_neg hp]
      have hp' : point_in_rect x y rc = false := by
        rwa [Bool.not_eq_true] at hp
      constructor
      · intro h
        obtain ⟨k, hk, hki⟩ := Option.map_eq_some'.mp h
        subst hki
        obtain ⟨rc', hget, hpt, hmin⟩ := (ih k).mp hk
        refine ⟨rc', by simpa using hget, hpt, ?_⟩
        intro j hj rc'' hget''
        cases j with
        | zero =>
          have : rc'' = rc := by simpa using hget''.symm
          subst this
          exact hp'
        | succ j' =>
          exact hmin j' (Nat.lt_of_succ_lt_succ hj) rc'' (by simpa using hget'')
      · rintro ⟨rc', hget, hpt, hmin⟩
        cases i with
        | zero =>
          have : rc' = rc := by simpa using hget.symm
          subst this
          exact absurd hpt (by simp [hp'])
        | succ k =>
          rw [Option.map_eq_some']
          refine ⟨k, (ih k).mpr ⟨rc', by simpa using hget, hpt, ?_⟩, rfl⟩
          intro j hj rc'' hget''
          exact hmin (j + 1) (Nat.succ_lt_succ hj) rc'' (by simpa using hget'')

/-- First-match characterization of `monitor_at_point`, `none` case. -/
theorem monitor_at_point_eq_none (x y : Int) :
    ∀ ms : List Rect,
      monitor_at_point x y ms = none ↔
        ∀ rc ∈ ms, point_in_rect x y rc = false := by
  intro ms
  induction ms with
  | nil => simp [monitor_at_point]
  | cons rc rest ih =>
    unfold monitor_at_point
    by_cases hp : point_in_rect x y rc = true
    · rw [if_pos hp]
      simp [hp]
    · rw [if_neg hp]
      have hp' : point_in_rect x y rc = false := by
        rwa [Bool.not_eq_true] at hp
      simp [Option.map_eq_none', ih, hp']

/-- C5: `monitor_at_point` returns the index of the first monitor in
enumeration order whose rectangle contains the point under half-open
bounds (`l ≤ x < r`, `t ≤ y < b`), and `none` when no monitor contains
the point; a point exactly on a rectangle's right or bottom edge is never
contained in that rectangle. -/
theorem monitor_at_point_first_match_half_open (ms : List Rect) (x y : Int) :
    (∀ i : Nat, monitor_at_point x y ms = some i ↔
      ∃ rc, ms.get? i = some rc ∧ point_in_rect x y rc = true ∧
        ∀ j, j < i → ∀ rc', ms.get? j = some rc' →
          point_in_rect x y rc' = false) ∧
    (monitor_at_point x y ms = none ↔
      ∀ rc ∈ ms, point_in_rect x y rc = false) ∧
    (point_in_rect x y = fun rc =>
      decide (rc.l ≤ x) && decide (x < rc.r) && decide (rc.t ≤ y)
        && decide (y < rc.b)) ∧
    (∀ rc : Rect, x = rc.r ∨ y = rc.b → point_in_rect x y rc = false) :=
  ⟨monitor_at_point_eq_some x y ms, monitor_at_point_eq_none x y ms, rfl,
    fun rc h => point_in_rect_edge_false x y rc h⟩

/-- Witness for C5: the point (1920, 0) sits on the right edge of the
first monitor, so the first monitor does not contain it and the second
one (first match) is returned. -/
theorem monitor_at_point_first_match_half_open_witness :
    point_in_rect 1920 0 ⟨0, 0, 1920, 1080⟩ = false ∧
      monitor_at_point 1920 0 [⟨0, 0, 1920, 1080⟩, ⟨1920, 0, 3840, 1080⟩] =
        some 1 :=
  ⟨(monitor_at_point_first_match_half_open [] 1920 0).2.2.2
      ⟨0, 0, 1920, 1080⟩ (Or.inl rfl),
    by decide⟩

/-- The nested rejection tests of `is_real_window` flatten to the claim's
conjunction of eligibility conditions. -/
theorem is_real_window_eq (w : Win) :
    is_real_window w =
      (w.visible && !(w.className == "Progman") && !(w.className == "Shell_TrayWnd")
        && (w.exStyle &&& WS_EX_TOOLWINDOW == 0)) := by
  unfold is_real_window
  split_ifs with h1 h2 h3
  · simp only [Bool.not_eq_true'] at h1
    simp [h1]
  · rcases Bool.or_eq_true _ _ |>.mp h2 with h | h <;> simp [h]
  · simp only [Bool.not_eq_true'] at h1
    simp only [Bool.or_eq_true, not_or] at h2
    simp [h1, h2.1, h2.2, h3]
  · simp only [Bool.not_eq_true'] at h1
    simp only [Bool.or_eq_true, not_or] at h2
    simp only [not_not] at h3
    simp [h1, h2.1, h2.2, h3]

/-- The enumeration walk equals a filter of the window list by the
flattened eligibility conditions, mapped to handles. -/
theorem enum_eq_filter_map (ms : List Rect) (idx : Int) (ws : List Win) :
    enum_windows_on_monitor ms idx ws =
      (ws.filter fun w =>
        w.visible && !(w.className == "Progman") && !(w.className == "Shell_TrayWnd")
          && (w.exStyle &&& WS_EX_TOOLWINDOW == 0)
          && opt_eq_int (get_window_monitor_idx ms w) idx
          && !(w.showCmd == SW_SHOWMINIMIZED)).map (fun w => w.hwnd) := by
  induction ws with
  | nil => rfl
  | cons w rest ih =>
    have hpred : (w.visible && !(w.className == "Progman")
          && !(w.className == "Shell_TrayWnd")
          && (w.exStyle &&& WS_EX_TOOLWINDOW == 0)
          && opt_eq_int (get_window_monitor_idx ms w) idx
          && !(w.showCmd == SW_SHOWMINIMIZED))
        = (is_real_window w && opt_eq_int (get_window_monitor_idx ms w) idx
            && !(w.showCmd == SW_SHOWMINIMIZED)) := by
      rw [is_real_window_eq]
    simp only [enum_windows_on_monitor, List.filter_cons, hpred]
    by_cases hr : is_real_window w = true
    · by_cases hm : opt_eq_int (get_window_monitor_idx ms w) idx = true
      · by_cases hs : w.showCmd = SW_SHOWMINIMIZED
        · simp [hr, hm, hs, ih]
        · simp [hr, hm, hs, ih]
      · simp [hr, hm, ih]
    · simp [hr, ih]

/-- C6: `enum_windows_on_monitor` returns, in enumeration order, exactly
the handles of the windows that are visible, not of a reserved
shell/desktop class, without the tool-window extended style, whose center
lies on the given monitor, and that are not currently minimized; in
particular every returned handle belongs to a window that was not
minimized before the call. -/
theorem enum_windows_eligible_filter (ms : List Rect) (idx : Int)
    (ws : List Win) :
    enum_windows_on_monitor ms idx ws =
      (ws.filter fun w =>
        w.visible && !(w.className == "Progman") && !(w.className == "Shell_TrayWnd")
          && (w.exStyle &&& WS_EX_TOOLWINDOW == 0)
          && opt_eq_int (get_window_monitor_idx ms w) idx
          && !(w.showCmd == SW_SHOWMINIMIZED)).map (fun w => w.hwnd) ∧
    ∀ h ∈ enum_windows_on_monitor ms idx ws,
      ∃ w, w ∈ ws ∧ w.hwnd = h ∧ w.showCmd ≠ SW_SHOWMINIMIZED := by
  refine ⟨enum_eq_filter_map ms idx ws, ?_⟩
  intro h hmem
  rw [enum_eq_filter_map ms idx ws] at hmem
  obtain ⟨w, hw, rfl⟩ := List.mem_map.mp hmem
  obtain ⟨hws, hpred⟩ := List.mem_filter.mp hw
  simp only [Bool.and_eq_true] at hpred
  exact ⟨w, hws, rfl, by simpa using hpred.2⟩

/-- Witness for C6: a window minimized before the call (`showCmd =
SW_SHOWMINIMIZED`) is excluded and the one eligible window's handle is
traced back to a non-minimized window. -/
theorem enum_windows_eligible_filter_witness :
    ∃ w, w ∈ [(⟨8, true, "App", 0, some ⟨0, 0, 100, 100⟩, 2⟩ : Win),
        ⟨7, true, "App", 0, some ⟨0, 0, 100, 100⟩, 1⟩] ∧
      w.hwnd = 7 ∧ w.showCmd ≠ SW_SHOWMINIMIZED :=
  (enum_windows_eligible_filter [⟨0, 0, 1920, 1080⟩] 0
    [⟨8, true, "App", 0, some ⟨0, 0, 100, 100⟩, 2⟩,
      ⟨7, true, "App", 0, some ⟨0, 0, 100, 100⟩, 1⟩]).2 7 (by decide)

/-- C7 (amended): if registration of the system-wide hook fails, an
installation error (`OSError`) is raised on the dedicated hook thread,
which then terminates without a hook installed; the caller of `start()`
does not observe the failure (it returns normally either way). -/
theorem start_failure_raised_on_hook_thread (regOk : Bool) :
    (WinDHook.start regOk).callerError = none ∧
      ((WinDHook.start regOk).hookThreadError =
        if regOk then none else some "Failed to install keyboard hook") :=
  ⟨rfl, rfl⟩

end WinD
